import Mathlib

/-!
Verification of the vehicle-to-Firestore synchronization bridge.

The push path lives in `app/src/main.py` (class `FirebaseSpeedSubscriberApp`)
and `app/src/notmain.py` (class `SpeedSubscriberApp`).  The pull path
(StorePoller, ChangeDetector, EventPublisher, PullTask) and the Bridge
supervisor are described by the specification but their code is not among the
provided source files, so they are modelled from the spec where a claim needs
them; every such definition is marked `Modelled from the spec:`.

Python semantics relevant here are embedded shallowly: exceptions become an
explicit `Except` result, Python `None` becomes a constructor of the embedded
value space, and side effects (Firestore writes, MQTT publishes, log lines)
become explicit event lists returned by the embedded functions.
-/

namespace VehicleBridge

/-- The Python exceptions this program can raise or catch.  `jsonDecodeError`
is `json.JSONDecodeError`, a subclass of `ValueError`; `valueError` stands for
a plain `ValueError` that is NOT a `JSONDecodeError` (such as the one raised
by `int()` on a malformed literal).  `storeError` stands for any exception
raised by the Firestore client call. -/
inductive PyExc where
  | valueError
  | jsonDecodeError
  | typeError
  | storeError (msg : String)
deriving DecidableEq, Repr

/-- Whether `except json.JSONDecodeError` catches a given exception: only
instances of `JSONDecodeError` itself; a plain `ValueError` is not an
instance of its own subclass. -/
def catchesJSONDecodeError : PyExc → Bool
  | PyExc.jsonDecodeError => true
  | _ => false

/-- Strip leading and trailing whitespace from a character list, mirroring the
whitespace stripping Python's `int(str)` performs before parsing. -/
def stripWS (cs : List Char) : List Char :=
  ((cs.dropWhile Char.isWhitespace).reverse.dropWhile Char.isWhitespace).reverse

/-- Value of a non-empty all-digit character list, `none` otherwise. -/
def digitsVal (cs : List Char) : Option Nat :=
  if cs ≠ [] ∧ cs.all Char.isDigit then
    some (cs.foldl (fun a c => 10 * a + (c.toNat - 48)) 0)
  else none

/-- Model of Python `int(data_str)` on a string argument: optional surrounding
whitespace, an optional sign, then decimal digits.  `some n` models a normal
return of the integer `n`; `none` models `int()` raising `ValueError`.
By construction the result is an integer or an exception — never Python
`None`. -/
def pyIntOfString (s : String) : Option Int :=
  match stripWS s.toList with
  | '-' :: rest => (digitsVal rest).map (fun n => -(n : Int))
  | '+' :: rest => (digitsVal rest).map (fun n => (n : Int))
  | cs => (digitsVal cs).map (fun n => (n : Int))

/-- The fragment of the Python value space the handlers manipulate:
integers and `None`. -/
inductive PyVal where
  | int (n : Int)
  | pyNone
deriving DecidableEq, Repr

/-- What the body of one `on_speed_received` iteration did before any
exception handling. -/
inductive HandlerStep where
  | wroteSpeed (v : Int)
  | warnedMissing
deriving DecidableEq, Repr

/-- The `try` block of `SpeedSubscriberApp.on_speed_received`
(`notmain.py` lines 39-48): `speed = int(data_str)`; then
`if speed is not None:` write the speed to the vehicle model, `else` log the
missing-field warning.  An `Except.error` models an exception raised inside
the block. -/
def on_speed_received_try (data_str : String) : Except PyExc HandlerStep :=
  match pyIntOfString data_str with
  | Option.none => Except.error PyExc.valueError
  | Option.some v =>
      let speed : PyVal := PyVal.int v
      if speed ≠ PyVal.pyNone then Except.ok (HandlerStep.wroteSpeed v)
      else Except.ok HandlerStep.warnedMissing

/-- Observable outcome of one full `on_speed_received` iteration at the
component boundary. -/
inductive HandlerOutcome where
  | wroteSpeed (v : Int)
  | warnedMissing
  | loggedDecodeError
  | raised (e : PyExc)
deriving DecidableEq, Repr

/-- `SpeedSubscriberApp.on_speed_received` (`notmain.py` lines 34-51): runs
the `try` block; an exception is intercepted only by
`except json.JSONDecodeError`, every other exception escapes the handler to
its caller (the MQTT dispatch machinery). -/
def on_speed_received (data_str : String) : HandlerOutcome :=
  match on_speed_received_try data_str with
  | Except.ok (HandlerStep.wroteSpeed v) => HandlerOutcome.wroteSpeed v
  | Except.ok HandlerStep.warnedMissing => HandlerOutcome.warnedMissing
  | Except.error e =>
      if catchesJSONDecodeError e then HandlerOutcome.loggedDecodeError
      else HandlerOutcome.raised e

/-- One Firestore `update` call as issued by the code: the collection and
document keys together with the field map passed to `doc_ref.update`. -/
structure FirestoreUpdateCall (α : Type) where
  collection : String
  document : String
  fields : List (String × α)
deriving DecidableEq, Repr

/-- The exact call `self.db.collection("SDV").document("Vehicle")` followed by
`doc_ref.update({"speed": speed})` builds (`main.py` lines 89-90). -/
def speedUpdateCall (speed : α) : FirestoreUpdateCall α :=
  ⟨"SDV", "Vehicle", [("speed", speed)]⟩

/-- What the body of `update_speed_in_firebase` logged. -/
inductive UpdateOutcome where
  | infoLogged
  | errorLogged (e : PyExc)
deriving DecidableEq, Repr

/-- `FirebaseSpeedSubscriberApp.update_speed_in_firebase` (`main.py` lines
86-93).  `sb` is the behavior of the remote store on an attempted update call:
`Except.error e` models the client call raising exception `e`.  The returned
pair is the outcome at the method boundary (`Except.error` would model an
exception escaping the method) together with the list of update calls
attempted, in order. -/
def update_speed_in_firebase (sb : FirestoreUpdateCall α → Except PyExc Unit)
    (speed : α) : Except PyExc UpdateOutcome × List (FirestoreUpdateCall α) :=
  let call := speedUpdateCall speed
  match sb call with
  | Except.ok _ => (Except.ok UpdateOutcome.infoLogged, [call])
  | Except.error e => (Except.ok (UpdateOutcome.errorLogged e), [call])

/-- The `DataPointReply` value delivered to the push-path subscription
callback, reduced to the extracted `data.get(self.vehicle.Speed).value`. -/
structure DataPointReplyVal (α : Type) where
  value : α
deriving DecidableEq, Repr

/-- `FirebaseSpeedSubscriberApp.on_speed_changed` (`main.py` lines 82-84):
extracts the sample value and forwards it to `update_speed_in_firebase`. -/
def on_speed_changed (sb : FirestoreUpdateCall α → Except PyExc Unit)
    (data : DataPointReplyVal α) :
    Except PyExc UpdateOutcome × List (FirestoreUpdateCall α) :=
  update_speed_in_firebase sb data.value

/-- The push path over a whole delivery sequence: each delivered sample
triggers one `on_speed_changed` callback invocation; the writes of all
iterations are concatenated in delivery order. -/
def pushRunWrites (sb : FirestoreUpdateCall α → Except PyExc Unit) :
    List α → List (FirestoreUpdateCall α)
  | [] => []
  | s :: rest => (on_speed_changed sb ⟨s⟩).2 ++ pushRunWrites sb rest

/-- A typed field value of the remote document (numbers and booleans,
per the spec's data model). -/
inductive FieldVal where
  | bool (b : Bool)
  | num (n : Int)
deriving DecidableEq, Repr

/-- A remote document state: a mapping from field name to value. -/
abbrev Document : Type := String → Option FieldVal

/-- Modelled from the spec: the remote store's `update_fields` operation
(§6, and the Firestore client's documented `update` semantics): a point
update that sets exactly the named fields and leaves every other field of
the document untouched. -/
def applyUpdateFields (doc : Document) (fields : List (String × FieldVal)) :
    Document :=
  fun name =>
    match fields.lookup name with
    | Option.some v => Option.some v
    | Option.none => doc name

/-- A point-in-time snapshot of the remote document, as the field/value pairs
read by one poll. -/
abbrev Snapshot : Type := List (String × FieldVal)

/-- Modelled from the spec: ChangeDetector's extraction of the named boolean
field from a snapshot, defaulting to `false` if the field is absent (§4.4). -/
def extractBool (snap : Snapshot) (field : String) : Bool :=
  match snap.lookup field with
  | Option.some (FieldVal.bool b) => b
  | _ => false

/-- A transition event: the boolean field that changed and its new value. -/
structure TransitionEvent where
  field : String
  new_value : Bool
deriving DecidableEq, Repr

/-- Modelled from the spec: `ChangeDetector.observe` (§4.4).  `state` is the
current ObservedState; the result is the ObservedState after the call paired
with the emitted event, if any: equal extracted value → no event, state kept;
differing value → state mutated to the new value, one event carrying it. -/
def observe (state : Bool) (field : String) (snap : Snapshot) :
    Bool × Option TransitionEvent :=
  let v := extractBool snap field
  if v = state then (state, Option.none)
  else (v, Option.some ⟨field, v⟩)

/-- Folding `observe` over a sequence of successfully polled snapshots,
collecting the emitted events in order. -/
def observeSeq (state : Bool) (field : String) :
    List Snapshot → Bool × List TransitionEvent
  | [] => (state, [])
  | snap :: rest =>
      match observe state field snap with
      | (s1, Option.none) => observeSeq s1 field rest
      | (s1, Option.some ev) =>
          let res := observeSeq s1 field rest
          (res.1, ev :: res.2)

/-- The boolean-to-label mapping of the door-state use case. -/
def doorLabel (b : Bool) : String := if b then "open" else "closed"

/-- The fixed local-bus topic for door-state announcements. -/
def DOOR_STATE_TOPIC : String := "door/changestate"

/-- One publish call on the local signal bus: topic and JSON-object payload,
the payload given as its field/value pairs. -/
structure PublishCall where
  topic : String
  payload : List (String × String)
deriving DecidableEq, Repr

/-- Modelled from the spec: `EventPublisher.publish` (§4.5): maps the event's
boolean to the `open`/`closed` label, wraps it into the payload object with
single field `door_state`, and publishes on the fixed topic. -/
def publishEvent (ev : TransitionEvent) : PublishCall :=
  ⟨DOOR_STATE_TOPIC, [("door_state", doorLabel ev.new_value)]⟩

/-- Modelled from the spec: one PullTask iteration (§4.3, §4.6, §8.4).
`pollResult` is the result of the remote read: `Option.none` models a failed
poll (the read error is caught and logged by StorePoller).  A failed poll
leaves ObservedState untouched and publishes nothing; a successful poll runs
ChangeDetector and publishes the event when one is emitted. -/
def pullIteration (state : Bool) (field : String)
    (pollResult : Option Snapshot) : Bool × List PublishCall :=
  match pollResult with
  | Option.none => (state, [])
  | Option.some snap =>
      match observe state field snap with
      | (s1, Option.none) => (s1, [])
      | (s1, Option.some ev) => (s1, [publishEvent ev])

/-- Modelled from the spec: the PullTask loop (§4.6), iterating over the
sequence of poll results (one per scheduled interval), threading
ObservedState and concatenating the publish calls. -/
def pullLoop (state : Bool) (field : String) :
    List (Option Snapshot) → Bool × List PublishCall
  | [] => (state, [])
  | p :: rest =>
      let step := pullIteration state field p
      let res := pullLoop step.1 field rest
      (res.1, step.2 ++ res.2)

/-- Outcome of one push-task iteration as seen by the supervisor: the
iteration completed (its fault, if any, already absorbed inside
`update_speed_in_firebase`), or a fault escaping the iteration body was
caught and logged by the task's isolation wrapper. -/
inductive PushIterOutcome (α : Type) where
  | completed (log : UpdateOutcome) (calls : List (FirestoreUpdateCall α))
  | faultLogged (e : PyExc)
deriving DecidableEq, Repr

/-- Modelled from the spec: the push task under the per-iteration
error-isolation wrapper (§4.7, §7).  Each delivered input is either a sample
or a fault injected into that iteration (`Except.error`, e.g. the
subscription delivery raising); a fault is caught and logged within the task
and the task proceeds to the next delivery. -/
def pushTaskRun (sb : FirestoreUpdateCall α → Except PyExc Unit)
    (inputs : List (Except PyExc α)) : List (PushIterOutcome α) :=
  inputs.map (fun inp =>
    match inp with
    | Except.error e => PushIterOutcome.faultLogged e
    | Except.ok sample =>
        match on_speed_changed sb ⟨sample⟩ with
        | (Except.ok log, calls) => PushIterOutcome.completed log calls
        | (Except.error e, _) => PushIterOutcome.faultLogged e)

/-- Modelled from the spec: the Bridge supervisor (§4.7) runs PushTask and
PullTask as two independently scheduled units of work sharing no mutable
state; the bridge's observable behavior is the pair of the two tasks'
outputs, each computed from that task's own inputs. -/
def bridgeRun (sb : FirestoreUpdateCall α → Except PyExc Unit)
    (pushInputs : List (Except PyExc α)) (initState : Bool) (field : String)
    (pulls : List (Option Snapshot)) :
    List (PushIterOutcome α) × (Bool × List PublishCall) :=
  (pushTaskRun sb pushInputs, pullLoop initState field pulls)

/-!  Helper lemmas shared by the claim theorems.  -/

/-- The calls attempted by one `update_speed_in_firebase` invocation:
exactly the single update call, whatever the store does. -/
theorem update_speed_calls (sb : FirestoreUpdateCall α → Except PyExc Unit)
    (speed : α) :
    (update_speed_in_firebase sb speed).2 = [speedUpdateCall speed] := by
  unfold update_speed_in_firebase
  cases h : sb (speedUpdateCall speed) <;> simp [h]

/-- The push path's write sequence is the delivered sample sequence mapped
through `speedUpdateCall`, for any store behavior. -/
theorem pushRunWrites_eq_map (sb : FirestoreUpdateCall α → Except PyExc Unit)
    (samples : List α) :
    pushRunWrites sb samples = samples.map speedUpdateCall := by
  induction samples with
  | nil => rfl
  | cons s rest ih =>
      show (on_speed_changed sb ⟨s⟩).2 ++ pushRunWrites sb rest = _
      rw [on_speed_changed, update_speed_calls, ih]
      rfl

/-- Folding `observe` from a state the whole sequence already agrees with
emits nothing and keeps the state. -/
theorem observeSeq_all_eq (field : String) (b : Bool) (snaps : List Snapshot)
    (h : snaps.all (fun s => extractBool s field == b) = true) :
    observeSeq b field snaps = (b, []) := by
  induction snaps with
  | nil => rfl
  | cons s rest ih =>
      simp only [List.all_cons, Bool.and_eq_true, beq_iff_eq] at h
      obtain ⟨h1, h2⟩ := h
      show (match observe b field s with
            | (s1, Option.none) => observeSeq s1 field rest
            | (s1, Option.some ev) =>
                let res := observeSeq s1 field rest
                (res.1, ev :: res.2)) = (b, [])
      rw [observe, h1]
      simpa using ih h2

/-!  Claim theorems.  -/

/-- Claim C1: failure isolation between the two paths.  In the bridge, the
pull task's output is unchanged under any change of the push task's inputs or
store behavior (including injected faults), and symmetrically the push task's
outcome list is unchanged under any change of the pull task's poll results;
every push delivery yields exactly one outcome (no fault cancels or stops the
task), and a fault injected into one push iteration is caught and logged
there while the task continues with the remaining deliveries. -/
theorem c1_failure_isolation (α : Type)
    (sb1 sb2 : FirestoreUpdateCall α → Except PyExc Unit)
    (pushA pushB : List (Except PyExc α)) (initState : Bool) (field : String)
    (pullsA pullsB : List (Option Snapshot)) :
    (bridgeRun sb1 pushA initState field pullsA).2 =
      (bridgeRun sb2 pushB initState field pullsA).2 ∧
    (bridgeRun sb1 pushA initState field pullsA).1 =
      (bridgeRun sb1 pushA initState field pullsB).1 ∧
    (bridgeRun sb1 pushA initState field pullsA).1.length = pushA.length ∧
    (∀ (e : PyExc) (rest : List (Except PyExc α)),
      pushTaskRun sb1 (Except.error e :: rest) =
        PushIterOutcome.faultLogged e :: pushTaskRun sb1 rest) := by
  refine ⟨rfl, rfl, ?_, ?_⟩
  · simp [bridgeRun, pushTaskRun]
  · intro e rest
    simp [pushTaskRun]

/-- Claim C2 (failing-input evaluation): delivering the MQTT message `"abc"`
to `on_speed_received` makes `int(data_str)` raise a `ValueError`, which
`except json.JSONDecodeError` does not catch, so the exception escapes the
iteration to the caller — contradicting the claim that every error raised
inside the iteration is caught and logged at the component boundary. -/
theorem c2_valueError_escapes_iteration :
    on_speed_received "abc" = HandlerOutcome.raised PyExc.valueError := by
  decide

/-- Claim C3: for every speed value and every store behavior — the call
succeeding or raising any exception — `update_speed_in_firebase` returns
normally (never re-raises) and attempts the remote update exactly once, the
write carrying the speed under field `"speed"` on document `SDV/Vehicle`. -/
theorem c3_store_writer_catches_and_writes_once (α : Type)
    (sb : FirestoreUpdateCall α → Except PyExc Unit) (speed : α) :
    ∃ out, update_speed_in_firebase sb speed =
      (Except.ok out, [⟨"SDV", "Vehicle", [("speed", speed)]⟩]) := by
  cases h : sb (speedUpdateCall speed) with
  | ok u =>
      refine ⟨UpdateOutcome.infoLogged, ?_⟩
      simp only [update_speed_in_firebase]
      rw [h]
      rfl
  | error e =>
      refine ⟨UpdateOutcome.errorLogged e, ?_⟩
      simp only [update_speed_in_firebase]
      rw [h]
      rfl

/-- Claim C4: for every delivery sequence on the push path and every store
behavior, exactly as many write calls occur as samples were delivered, and
the i-th write carries the i-th sample's value under the field name
`"speed"`; identical consecutive values are not coalesced since the write
list is index-for-index the sample list's image. -/
theorem c4_k_samples_k_writes (α : Type)
    (sb : FirestoreUpdateCall α → Except PyExc Unit) (samples : List α)
    (i : Nat) :
    (pushRunWrites sb samples).length = samples.length ∧
    (pushRunWrites sb samples)[i]? =
      samples[i]?.map (fun s => ⟨"SDV", "Vehicle", [("speed", s)]⟩) := by
  rw [pushRunWrites_eq_map]
  constructor
  · exact samples.length_map speedUpdateCall
  · rw [List.getElem?_map]
    rfl

/-- Claim C5: a successful push-path write is a partial point update of the
single field `"speed"`: for every prior document state and every sibling
field, the field's value after applying the update the code issues is
unchanged. -/
theorem c5_partial_update_preserves_siblings (doc : Document) (v : FieldVal)
    (f : String) (h : f ≠ "speed") :
    applyUpdateFields doc (speedUpdateCall v).fields f = doc f := by
  have hb : (f == "speed") = false := by simpa using h
  simp [applyUpdateFields, speedUpdateCall, List.lookup, hb]

/-- Witness for C5 at a concrete document and sibling field. -/
theorem c5_partial_update_witness :
    ("isEngineRunning" : String) ≠ "speed" ∧
    applyUpdateFields (fun _ => Option.some (FieldVal.bool true))
        (speedUpdateCall (FieldVal.num 30)).fields "isEngineRunning" =
      Option.some (FieldVal.bool true) :=
  ⟨by decide,
    c5_partial_update_preserves_siblings
      (fun _ => Option.some (FieldVal.bool true)) (FieldVal.num 30)
      "isEngineRunning" (by decide)⟩

/-- Claim C6: `observe` is strictly edge-triggered: an extracted value equal
to ObservedState yields no event and an unchanged state; a differing value
yields exactly one event carrying the new value and mutates the state to it;
and over any poll sequence whose extracted value is constant, the total
number of emitted events is zero when the value already equals the starting
state, and exactly one otherwise — hence zero events after the first
observation. -/
theorem c6_edge_triggered (state : Bool) (field : String) (snap : Snapshot)
    (b : Bool) (snaps : List Snapshot) :
    (extractBool snap field = state →
      observe state field snap = (state, Option.none)) ∧
    (extractBool snap field ≠ state →
      observe state field snap =
        (extractBool snap field,
          Option.some ⟨field, extractBool snap field⟩)) ∧
    (snaps.all (fun s => extractBool s field == b) = true →
      (observeSeq state field snaps).2.length =
        if b = state ∨ snaps = [] then 0 else 1) := by
  refine ⟨fun h => by simp [observe, h], fun h => by simp [observe, h], ?_⟩
  intro hall
  cases snaps with
  | nil => simp [observeSeq]
  | cons s rest =>
      simp only [List.all_cons, Bool.and_eq_true, beq_iff_eq] at hall
      obtain ⟨h1, h2⟩ := hall
      by_cases hb : b = state
      · subst hb
        rw [observeSeq_all_eq field b (s :: rest)
          (by simp [List.all_cons, h1, h2])]
        simp
      · show (match observe state field s with
              | (s1, Option.none) => observeSeq s1 field rest
              | (s1, Option.some ev) =>
                  let res := observeSeq s1 field rest
                  (res.1, ev :: res.2)).2.length = _
        rw [observe, h1, if_neg hb]
        simp [observeSeq_all_eq field b rest (by simpa using h2), hb]

/-- Witness for C6 at concrete snapshots: starting from `false`, a snapshot
reading `true` flips the state with one event, and three consecutive `true`
readings yield exactly one event in total. -/
theorem c6_edge_triggered_witness :
    observe false "isEngineRunning" [("isEngineRunning", FieldVal.bool true)] =
      (true, Option.some ⟨"isEngineRunning", true⟩) ∧
    (observeSeq false "isEngineRunning"
        [[("isEngineRunning", FieldVal.bool true)],
         [("isEngineRunning", FieldVal.bool true)],
         [("isEngineRunning", FieldVal.bool true)]]).2.length = 1 := by
  have h := c6_edge_triggered false "isEngineRunning"
    [("isEngineRunning", FieldVal.bool true)] true
    [[("isEngineRunning", FieldVal.bool true)],
     [("isEngineRunning", FieldVal.bool true)],
     [("isEngineRunning", FieldVal.bool true)]]
  exact ⟨h.2.1 (by decide), (h.2.2 (by decide)).trans (by decide)⟩

/-- Claim C7: when the named boolean field is absent from the polled
snapshot, the extracted value is the documented default `false`; no error is
raised (the extraction is total). -/
theorem c7_absent_field_defaults_false (snap : Snapshot) (field : String)
    (h : snap.lookup field = Option.none) :
    extractBool snap field = false := by
  unfold extractBool
  rw [h]

/-- Witness for C7 on a snapshot that carries only the speed field. -/
theorem c7_absent_field_witness :
    ([("speed", FieldVal.num 30)] : Snapshot).lookup "isEngineRunning" =
      Option.none ∧
    extractBool [("speed", FieldVal.num 30)] "isEngineRunning" = false :=
  ⟨by decide,
    c7_absent_field_defaults_false [("speed", FieldVal.num 30)]
      "isEngineRunning" (by decide)⟩

/-- Claim C8: `publishEvent` maps `true` to label `"open"` and `false` to
`"closed"`, wraps the label as the JSON object with single field
`door_state`, and publishes on the fixed topic `door/changestate`, for every
event field name. -/
theorem c8_publish_mapping (f : String) :
    publishEvent ⟨f, true⟩ =
      ⟨DOOR_STATE_TOPIC, [("door_state", "open")]⟩ ∧
    publishEvent ⟨f, false⟩ =
      ⟨DOOR_STATE_TOPIC, [("door_state", "closed")]⟩ ∧
    DOOR_STATE_TOPIC = "door/changestate" :=
  ⟨rfl, rfl, rfl⟩

/-- Claim C9: a failed poll is atomic and non-fatal: the iteration leaves
ObservedState unchanged and publishes nothing, and the loop continues with
the remaining scheduled polls exactly as if the failed iteration were
absent. -/
theorem c9_failed_poll_atomic (state : Bool) (field : String)
    (rest : List (Option Snapshot)) :
    pullIteration state field Option.none = (state, []) ∧
    pullLoop state field (Option.none :: rest) = pullLoop state field rest := by
  refine ⟨rfl, ?_⟩
  show (let step := pullIteration state field Option.none
        let res := pullLoop step.1 field rest
        (res.1, step.2 ++ res.2)) = pullLoop state field rest
  simp [pullIteration]

/-- Claim C10: the warning branch of `on_speed_received` is unreachable: for
every input string, the `try` body either raises `ValueError` (from `int`) or
writes the parsed integer speed — it never reaches the `else` branch, so the
full handler never produces the missing-field warning. -/
theorem c10_warning_branch_unreachable (s : String) :
    ((∃ v : Int, on_speed_received_try s = Except.ok (HandlerStep.wroteSpeed v)) ∨
      on_speed_received_try s = Except.error PyExc.valueError) ∧
    on_speed_received s ≠ HandlerOutcome.warnedMissing := by
  constructor
  · unfold on_speed_received_try
    cases pyIntOfString s with
    | none => exact Or.inr rfl
    | some v => exact Or.inl ⟨v, by simp⟩
  · unfold on_speed_received on_speed_received_try
    cases pyIntOfString s with
    | none => simp [catchesJSONDecodeError]
    | some v => simp

end VehicleBridge
